import Mathlib

/-!
Verification of the rapidbro backend (`src/be/src/main.rs`) against its
design document. The program is shallowly embedded: Rust strings are
`List Char` (or, for decoded byte content, `List Nat` with a UTF-8
validity predicate), fallible operations return `Option`, and the two
external crates the decode path calls — `flate2`'s `GzDecoder` and
`serde_json`'s parser — are parameters of the embedded functions, since
their code is not part of this repository. The base64 `STANDARD` engine
(padding required, no trailing bits allowed) is embedded concretely.
-/

namespace RapidBro

/-! ## Base64: the `base64::engine::general_purpose::STANDARD` codec
used by `decode_bus_data` (main.rs lines 31-33). Decoding consumes the
input in blocks of four alphabet characters; `=` padding is allowed only
at the very end, and the bits discarded by padding must be zero, as in
the crate's canonical-padding configuration. -/

def padCh : Char := '='

def b64Char (n : Nat) : Char :=
  if n < 26 then Char.ofNat (65 + n)
  else if n < 52 then Char.ofNat (97 + (n - 26))
  else if n < 62 then Char.ofNat (48 + (n - 52))
  else if n = 62 then '+' else '/'

def b64Index (c : Char) : Option Nat :=
  if 'A' ≤ c ∧ c ≤ 'Z' then some (c.toNat - 65)
  else if 'a' ≤ c ∧ c ≤ 'z' then some (c.toNat - 97 + 26)
  else if '0' ≤ c ∧ c ≤ '9' then some (c.toNat - 48 + 52)
  else if c = '+' then some 62
  else if c = '/' then some 63
  else none

/-- Standard base64 encoding of a byte sequence, three bytes at a time,
with mandatory `=` padding. This models the encoder of the feed side,
whose output `decode_bus_data` receives. -/
def b64EncodeList : List Nat → List Char
  | [] => []
  | [a] => [b64Char (a / 4), b64Char (a % 4 * 16), padCh, padCh]
  | [a, b] => [b64Char (a / 4), b64Char (a % 4 * 16 + b / 16), b64Char (b % 16 * 4), padCh]
  | a :: b :: c :: rest =>
      b64Char (a / 4) :: b64Char (a % 4 * 16 + b / 16) ::
      b64Char (b % 16 * 4 + c / 64) :: b64Char (c % 64) :: b64EncodeList rest

/-- Standard base64 decoding with mandatory canonical padding, as
performed by `STANDARD.decode` in `decode_bus_data`: four characters per
block, `=` only in the final block, discarded bits required to be zero,
any character outside the alphabet an error. -/
def b64DecodeList : List Char → Option (List Nat)
  | c1 :: c2 :: c3 :: c4 :: rest =>
      if c3 = padCh ∧ c4 = padCh ∧ rest = [] then
        (b64Index c1).bind fun i1 =>
        (b64Index c2).bind fun i2 =>
        if i2 % 16 = 0 then some [i1 * 4 + i2 / 16] else none
      else if c4 = padCh ∧ rest = [] then
        (b64Index c1).bind fun i1 =>
        (b64Index c2).bind fun i2 =>
        (b64Index c3).bind fun i3 =>
        if i3 % 4 = 0 then some [i1 * 4 + i2 / 16, i2 % 16 * 16 + i3 / 4] else none
      else
        (b64Index c1).bind fun i1 =>
        (b64Index c2).bind fun i2 =>
        (b64Index c3).bind fun i3 =>
        (b64Index c4).bind fun i4 =>
        (b64DecodeList rest).bind fun bs =>
        some ((i1 * 4 + i2 / 16) :: (i2 % 16 * 16 + i3 / 4) :: (i3 % 4 * 64 + i4) :: bs)
  | [] => some []
  | _ => none

/-! ## UTF-8 validity
`GzDecoder::read_to_string` (main.rs lines 36-38) decompresses into a
Rust `String` and therefore fails unless the decompressed bytes are
valid UTF-8. A Rust `String` is exactly its UTF-8 byte content, so the
decoded text is modelled as the byte list itself, guarded by this
predicate (strict UTF-8: no overlong forms, no surrogates, max U+10FFFF). -/

def isContByte (b : Nat) : Bool := decide (0x80 ≤ b ∧ b ≤ 0xBF)

def isValidUtf8 : List Nat → Bool
  | [] => true
  | b1 :: rest =>
    if b1 ≤ 0x7F then isValidUtf8 rest
    else if 0xC2 ≤ b1 ∧ b1 ≤ 0xDF then
      match rest with
      | b2 :: rest2 => isContByte b2 && isValidUtf8 rest2
      | [] => false
    else if 0xE0 ≤ b1 ∧ b1 ≤ 0xEF then
      match rest with
      | b2 :: b3 :: rest3 =>
          (if b1 = 0xE0 then decide (0xA0 ≤ b2 ∧ b2 ≤ 0xBF)
           else if b1 = 0xED then decide (0x80 ≤ b2 ∧ b2 ≤ 0x9F)
           else isContByte b2) && isContByte b3 && isValidUtf8 rest3
      | _ => false
    else if 0xF0 ≤ b1 ∧ b1 ≤ 0xF4 then
      match rest with
      | b2 :: b3 :: b4 :: rest4 =>
          (if b1 = 0xF0 then decide (0x90 ≤ b2 ∧ b2 ≤ 0xBF)
           else if b1 = 0xF4 then decide (0x80 ≤ b2 ∧ b2 ≤ 0x8F)
           else isContByte b2) && isContByte b3 && isContByte b4 && isValidUtf8 rest4
      | _ => false
    else false

/-! ## decode_bus_data (main.rs lines 29-41)
`gz` is the decompression performed by `flate2::read::GzDecoder`, a
crate external to this repository, so it is a parameter: it maps the
base64-decoded bytes to the decompressed bytes, or `none` when the bytes
are not a valid gzip stream. `read_to_string` additionally requires the
decompressed bytes to be valid UTF-8. -/

def decode_bus_data (gz : List Nat → Option (List Nat)) (encoded : List Char) :
    Option (List Nat) :=
  match b64DecodeList encoded with
  | none => none
  | some bytes =>
    match gz bytes with
    | none => none
    | some dec => if isValidUtf8 dec then some dec else none

/-! ## Session resolution (main.rs lines 44-85)
`prasarana_websocket` fetches the kiosk page and scans the HTML with
three regexes. The three patterns share the shape
`var\s+NAME\s*=\s*quote([^q]CARD)quote` with a single-quote delimiter;
the `sid` pattern uses `+` (at least one captured character), `prm` and
`no_route` use `*`. The regex crate's leftmost-first match is modelled
by trying each start position left to right; the pattern is
deterministic because every greedy sub-pattern (`\s+`, `\s*`, `[^q]+`)
is followed by a character it cannot itself match. -/

def quoteCh : Char := Char.ofNat 39

/-- Character class `\s` of the regex crate with its default Unicode
mode: the Unicode White_Space set. -/
def isWsChar (c : Char) : Bool :=
  [0x9, 0xA, 0xB, 0xC, 0xD, 0x20, 0x85, 0xA0, 0x1680,
   0x2000, 0x2001, 0x2002, 0x2003, 0x2004, 0x2005, 0x2006, 0x2007,
   0x2008, 0x2009, 0x200A, 0x2028, 0x2029, 0x202F, 0x205F, 0x3000].contains c.toNat

def dropWsStar : List Char → List Char
  | [] => []
  | c :: rest => if isWsChar c then dropWsStar rest else c :: rest

/-- Greedy `\s+`: at least one whitespace character, then as many as
possible. -/
def wsPlus : List Char → Option (List Char)
  | [] => none
  | c :: rest => if isWsChar c then some (dropWsStar rest) else none

def matchLit : List Char → List Char → Option (List Char)
  | [], s => some s
  | _ :: _, [] => none
  | l :: ls, c :: rest => if c = l then matchLit ls rest else none

/-- Greedy `[^q]*` followed by the closing quote: capture everything up
to the next single quote; fail if no closing quote exists. -/
def captureToQuote : List Char → Option (List Char × List Char)
  | [] => none
  | c :: rest =>
    if c = quoteCh then some ([], rest)
    else (captureToQuote rest).map fun p => (c :: p.1, p.2)

/-- Attempt `var\s+NAME\s*=\s*q([^q]CARD)q` anchored at the start of
`s`; `allowEmpty` is true for the `*` patterns (`prm`, `no_route`) and
false for the `+` pattern (`sid`). Returns the capture group. -/
def tryVarAt (name : List Char) (allowEmpty : Bool) (s : List Char) :
    Option (List Char) := do
  let s ← matchLit "var".data s
  let s ← wsPlus s
  let s ← matchLit name s
  let s := dropWsStar s
  let s ← matchLit ['='] s
  let s := dropWsStar s
  let s ← matchLit [quoteCh] s
  let (cap, _) ← captureToQuote s
  if allowEmpty ∨ cap ≠ [] then some cap else none

/-- Leftmost match of the pattern anywhere in the text, as
`Regex::captures` returns, projected to capture group 1. -/
def findVar (name : List Char) (allowEmpty : Bool) : List Char → Option (List Char)
  | [] => none
  | c :: rest =>
    match tryVarAt name allowEmpty (c :: rest) with
    | some cap => some cap
    | none => findVar name allowEmpty rest

/-- Session data scraped from the kiosk page (spec §3): the values bound
by `let sid`, `let prm`, `let no_route` in main.rs lines 64-80. -/
structure Session where
  sid : List Char
  prm : List Char
  no_route : List Char
deriving DecidableEq

/-- Field extraction of main.rs lines 64-80: each field from its own
regex, `unwrap_or_else` supplying the defaults. -/
def extract_session (html : List Char) : Session :=
  { sid := (findVar "sid".data false html).getD "".data
    prm := (findVar "prm".data true html).getD "rapidkl".data
    no_route := (findVar "no_route".data true html).getD "300".data }

/-- Session resolution of main.rs lines 56-80, as a function of the
outcome of the HTTP fetch (`send().await` chained with `text().await`,
`none` when either fails). Both calls are followed by `.unwrap()`, so a
failed fetch panics: the panic is modelled by propagating `none`. -/
def prasarana_resolve (fetched : Option (List Char)) : Option Session :=
  match fetched with
  | none => none
  | some html => some (extract_session html)

/-! ## Inbound callback (main.rs lines 96-142)
The `onFts-client` callback receives a socket.io `Payload`: a vector of
JSON values, a binary blob, or another shape. `serde_json` is external
to this repository, so the type of parsed JSON values is a type
parameter `α` and the parser a function parameter `parse`; an item of
the text payload is either a JSON string (for which `value.as_str()`
returns its characters) or some other JSON shape. The callback only
prints; each print is modelled as a `Report` sent to the reporter. -/

inductive InboundItem (α : Type) where
  | text (s : List Char)
  | nonString (v : α)

inductive InboundPayload (α : Type) where
  | textItems (items : List (InboundItem α))
  | binary (bin : List Nat)
  | other

/-- Observable output of the callback, one constructor per `println!` /
`eprintln!` branch: the pretty-printed parsed JSON (lines 109-113), the
raw non-JSON text (lines 116-118), the decode-failure notice carrying
the encoded input (line 123), the non-string notice (lines 127-131), and
the length-only binary notice (line 136). -/
inductive Report (α : Type) where
  | structured (v : α)
  | raw (text : List Nat)
  | decodeFailed (encoded : List Char)
  | nonString (v : α)
  | binaryLen (n : Nat)

/-- Handling of one string item of a text payload (main.rs lines
104-125): decode, then classify by JSON parse, a parse failure being the
raw-text case, a decode failure a discard-and-report. -/
def item_report {α : Type} (gz : List Nat → Option (List Nat))
    (parse : List Nat → Option α) : InboundItem α → Report α
  | .text s =>
    match decode_bus_data gz s with
    | some dec =>
      match parse dec with
      | some v => .structured v
      | none => .raw dec
    | none => .decodeFailed s
  | .nonString v => .nonString v

/-- The full `onFts-client` callback (main.rs lines 97-142). -/
def callback {α : Type} (gz : List Nat → Option (List Nat))
    (parse : List Nat → Option α) : InboundPayload α → List (Report α)
  | .textItems items => items.map (item_report gz parse)
  | .binary bin => [.binaryLen bin.length]
  | .other => []

/-! ## Connection run and keep-alive loop (main.rs lines 144-204)
The live phase is modelled as the list of observable events it produces,
as a function of the environment's choices: whether the transport
connects, the outcome of the handshake emit, and the outcomes of the
successive keep-alive emits. The keep-alive outcome list is a finite
observation window of the infinite `loop`; an exhausted list means the
loop was still running when observation stopped. -/

inductive EmitResult where
  | ok
  | err
deriving DecidableEq

structure EmitEvent where
  event : List Char
  payload : List (List Char × List Char)
deriving DecidableEq

/-- The `json!` payload built for every `onFts-reload` emission
(main.rs lines 162-167 and 187-192): both sites list the same four
fields from the one extracted session. -/
def reload_payload (s : Session) : List (List Char × List Char) :=
  [("sid".data, s.sid), ("uid".data, []),
   ("provider".data, s.prm), ("route".data, s.no_route)]

def reload_event (s : Session) : EmitEvent :=
  { event := "onFts-reload".data, payload := reload_payload s }

/-- Observable events of the live phase, one constructor per print or
I/O action: the connect print (line 159), an emit with its outcome, the
handshake emit-failure print (line 171), the keep-alive emit-failure
print (line 195), the 5-second sleep (line 185), and the
connect-failure print (line 201). -/
inductive Event where
  | connected
  | emit (e : EmitEvent) (r : EmitResult)
  | emitFailReport
  | reloadFailReport
  | sleep (secs : Nat)
  | connectFailReport
deriving DecidableEq

/-- The `loop` of main.rs lines 184-198: sleep five seconds, emit the
refresh payload; on `Err` print the failure and `break`, else continue. -/
def keep_alive_loop (s : Session) : List EmitResult → List Event
  | [] => []
  | r :: rest =>
    Event.sleep 5 :: Event.emit (reload_event s) r ::
      match r with
      | .ok => keep_alive_loop s rest
      | .err => [Event.reloadFailReport]

/-- The `connect` handler of main.rs lines 154-175: emit the handshake
payload; on `Err` print the failure — and nothing else: no break, no
propagation. -/
def connect_handler (s : Session) (r : EmitResult) : List Event :=
  Event.emit (reload_event s) r ::
    match r with
    | .ok => []
    | .err => [Event.emitFailReport]

/-- The live phase of `prasarana_websocket` (main.rs lines 144-204):
on a successful transport connect the `connect` event fires (handshake),
then the keep-alive loop runs; on a failed connect only the failure
print happens. -/
def run_live (s : Session) (connectOk : Bool) (hs : EmitResult)
    (outs : List EmitResult) : List Event :=
  if connectOk then
    Event.connected :: connect_handler s hs ++ keep_alive_loop s outs
  else
    [Event.connectFailReport]

/-! ## Event classifiers and the keep-alive specification -/

def isEmitEv : Event → Bool
  | .emit _ _ => true
  | _ => false

def isSleepEv : Event → Bool
  | .sleep _ => true
  | _ => false

def isReloadFailEv : Event → Bool
  | .reloadFailReport => true
  | _ => false

def isOk : EmitResult → Bool
  | .ok => true
  | .err => false

/-- Specification-side shape of the keep-alive loop (spec §4.4): one
`sleep 5`/emit pair per tick while emits succeed, and on the first
failing emit one final tick followed by a single failure report, with
nothing after it. -/
def spec_keep_alive (s : Session) (outs : List EmitResult) : List Event :=
  (outs.takeWhile isOk).flatMap (fun _ => [Event.sleep 5, Event.emit (reload_event s) .ok]) ++
    (if outs.dropWhile isOk = [] then []
     else [Event.sleep 5, Event.emit (reload_event s) .err, Event.reloadFailReport])

/-! ## Concrete instances used in evaluations
`gz_none` is a decompressor instance for environments whose inputs are
never gzip streams (any stream lacking the `1f 8b` magic is rejected by
`GzDecoder`, e.g. the bytes `[0, 0, 0]` that `AAAA` decodes to);
`parse0` a JSON parser instance that accepts nothing, over the value
type `Unit`. -/

def gz_none : List Nat → Option (List Nat) := fun _ => none

def parse0 : List Nat → Option Unit := fun _ => none

/-- Input that is not valid base64: `!` is outside the alphabet. -/
def bad_b64 : List Char := "!!!!".data

/-- Valid base64 (`AAAA`, decoding to `[0, 0, 0]`) of bytes that are not
a gzip stream (no `1f 8b` magic). -/
def nongzip_b64 : List Char := "AAAA".data

/-- Stage of the layered decode at which a failure occurs, from the
design's `DecodeError{stage}` (spec §4.1). -/
inductive DecodeStage where
  | base64
  | gzip
deriving DecidableEq

/-- Kiosk page body containing the three assignments of the spec's
positive extraction test. -/
def sample_html : List Char :=
  "var sid = ".data ++ [quoteCh] ++ "abc123".data ++ [quoteCh] ++
  ";var prm = ".data ++ [quoteCh] ++ "rapidkl".data ++ [quoteCh] ++
  ";var no_route = ".data ++ [quoteCh] ++ "300".data ++ [quoteCh] ++ ";".data

/-- Kiosk page body with no matching assignment. -/
def empty_html : List Char := "<html>no vars here</html>".data

/-- Session holding the three documented defaults. -/
def s0 : Session := ⟨[], "rapidkl".data, "300".data⟩

/-! ## Base64 alphabet facts -/

theorem b64Index_b64Char : ∀ n : Nat, n < 64 → b64Index (b64Char n) = some n := by
  decide

theorem b64Char_ne_pad : ∀ n : Nat, n < 64 → b64Char n ≠ padCh := by
  decide

/-- Round-trip of the embedded base64 codec: decoding the encoding of any
byte sequence recovers it. -/
theorem b64_roundtrip :
    ∀ bs : List Nat, (∀ x ∈ bs, x < 256) →
      b64DecodeList (b64EncodeList bs) = some bs := by
  intro bs
  induction bs using b64EncodeList.induct with
  | case1 =>
    intro _
    rfl
  | case2 a =>
    intro h
    have ha : a < 256 := h a (by simp)
    simp only [b64EncodeList, b64DecodeList]
    rw [if_pos (by simp)]
    rw [b64Index_b64Char (a / 4) (by omega), b64Index_b64Char (a % 4 * 16) (by omega)]
    simp only [Option.some_bind]
    rw [if_pos (by omega)]
    congr 2
    omega
  | case3 a b =>
    intro h
    have ha : a < 256 := h a (by simp)
    have hb : b < 256 := h b (by simp)
    simp only [b64EncodeList, b64DecodeList]
    rw [if_neg (by
      intro hcon
      exact b64Char_ne_pad (b % 16 * 4) (by omega) hcon.1)]
    rw [if_pos (by simp)]
    rw [b64Index_b64Char (a / 4) (by omega),
        b64Index_b64Char (a % 4 * 16 + b / 16) (by omega),
        b64Index_b64Char (b % 16 * 4) (by omega)]
    simp only [Option.some_bind]
    rw [if_pos (by omega)]
    congr 1
    congr 1
    · omega
    congr 1
    omega
  | case4 a b c rest ih =>
    intro h
    have ha : a < 256 := h a (by simp)
    have hb : b < 256 := h b (by simp)
    have hc : c < 256 := h c (by simp)
    have hrest : ∀ x ∈ rest, x < 256 := by
      intro x hx
      exact h x (by simp [hx])
    simp only [b64EncodeList, b64DecodeList]
    rw [if_neg (by
      intro hcon
      exact b64Char_ne_pad (b % 16 * 4 + c / 64) (by omega) hcon.1)]
    rw [if_neg (by
      intro hcon
      exact b64Char_ne_pad (c % 64) (by omega) hcon.1)]
    rw [b64Index_b64Char (a / 4) (by omega),
        b64Index_b64Char (a % 4 * 16 + b / 16) (by omega),
        b64Index_b64Char (b % 16 * 4 + c / 64) (by omega),
        b64Index_b64Char (c % 64) (by omega)]
    simp only [Option.some_bind]
    rw [ih hrest]
    simp only [Option.some_bind]
    congr 1
    congr 1
    · omega
    congr 1
    · omega
    congr 1
    omega

/-- Bind form of the decoder, convenient for case analysis. -/
theorem decode_bus_data_eq (gz : List Nat → Option (List Nat)) (encoded : List Char) :
    decode_bus_data gz encoded =
      (b64DecodeList encoded).bind fun bytes =>
        (gz bytes).bind fun dec =>
          if isValidUtf8 dec then some dec else none := by
  unfold decode_bus_data
  cases b64DecodeList encoded with
  | none => simp
  | some bs =>
    simp only [Option.some_bind]
    cases gz bs with
    | none => simp
    | some dec => simp

/-- C1: Round-trip law of the payload decoder. For every text `T` (a
valid-UTF-8 byte sequence) and every decompressor `gz` that inverts the
compression `compress` at `T`, decoding the base64 encoding of the
compression of `T` succeeds and yields `T`; the callback's
classification then produces the structured result exactly when the JSON
parser accepts `T`, and the raw text otherwise — a parse failure is not
an error. -/
theorem C1_decode_roundtrip {α : Type} (gz : List Nat → Option (List Nat))
    (parse : List Nat → Option α) (compress : List Nat → List Nat) (T : List Nat)
    (hT : isValidUtf8 T = true)
    (hbytes : ∀ b ∈ compress T, b < 256)
    (hgz : gz (compress T) = some T) :
    decode_bus_data gz (b64EncodeList (compress T)) = some T ∧
    item_report gz parse (InboundItem.text (b64EncodeList (compress T))) =
      (match parse T with
       | some v => Report.structured v
       | none => Report.raw T) := by
  have hdec : decode_bus_data gz (b64EncodeList (compress T)) = some T := by
    rw [decode_bus_data_eq, b64_roundtrip (compress T) hbytes]
    simp [hgz, hT]
  refine ⟨hdec, ?_⟩
  simp only [item_report]
  rw [hdec]

/-- Witness for C1 at the text `[123, 125]` (the two bytes of a minimal
JSON object), the identity compression, the decompressor `some`, and a
parser accepting everything with value `7`. -/
theorem C1_witness :
    isValidUtf8 [123, 125] = true ∧
    (∀ b ∈ (fun x : List Nat => x) [123, 125], b < 256) ∧
    (some : List Nat → Option (List Nat)) ((fun x : List Nat => x) [123, 125]) =
      some [123, 125] ∧
    item_report (some : List Nat → Option (List Nat)) (fun _ => some 7)
        (InboundItem.text (b64EncodeList ((fun x : List Nat => x) [123, 125]))) =
      Report.structured 7 :=
  ⟨by decide, by decide, rfl,
    (C1_decode_roundtrip (some : List Nat → Option (List Nat)) (fun _ => some (7 : Nat))
      (fun x => x) [123, 125] (by decide) (by decide) rfl).2⟩

/-- C10: the decoder yields `some t` exactly when base64 decoding
succeeds, decompression succeeds, and the decompressed bytes `t` are
valid UTF-8; in particular a blob whose base64 and gzip stages both
succeed is still rejected when the decompressed bytes are not UTF-8. -/
theorem C10_utf8_requirement (gz : List Nat → Option (List Nat)) (s : List Char) :
    (∀ t : List Nat,
       decode_bus_data gz s = some t ↔
         ∃ bs, b64DecodeList s = some bs ∧ gz bs = some t ∧ isValidUtf8 t = true) ∧
    (∀ bs dec : List Nat, b64DecodeList s = some bs → gz bs = some dec →
       isValidUtf8 dec = false → decode_bus_data gz s = none) := by
  constructor
  · intro t
    rw [decode_bus_data_eq]
    constructor
    · intro h
      rcases Option.bind_eq_some.mp h with ⟨bs, hb, h2⟩
      rcases Option.bind_eq_some.mp h2 with ⟨dec, hg, h3⟩
      by_cases hu : isValidUtf8 dec
      · rw [if_pos hu] at h3
        cases h3
        exact ⟨bs, hb, hg, hu⟩
      · rw [if_neg hu] at h3
        cases h3
    · rintro ⟨bs, hb, hg, hu⟩
      rw [hb]
      simp [hg, hu]
  · intro bs dec hb hg hu
    rw [decode_bus_data_eq, hb]
    simp [hg, hu]

/-- Witness for C10: `AAAA` is valid base64 of `[0, 0, 0]`, a
decompressor mapping those bytes to the lone byte `255` succeeds, yet
the decoder rejects the blob because `[255]` is not UTF-8. -/
theorem C10_witness :
    b64DecodeList nongzip_b64 = some [0, 0, 0] ∧
    (fun _ : List Nat => some [255]) [0, 0, 0] = some [255] ∧
    isValidUtf8 [255] = false ∧
    decode_bus_data (fun _ : List Nat => some [255]) nongzip_b64 = none :=
  ⟨by decide, rfl, by decide,
    (C10_utf8_requirement (fun _ => some [255]) nongzip_b64).2 [0, 0, 0] [255]
      (by decide) rfl (by decide)⟩

/-- C3 counterexample: decode failures are not stage-tagged. An invalid
base64 input and a valid base64 input of non-gzip bytes both yield the
same bare `none` — the `.ok()?` chain of `decode_bus_data` discards the
stage, so no consumer of the result can report stage `base64` for the
one and stage `gzip` for the other. -/
theorem C3_counterexample :
    b64DecodeList bad_b64 = none ∧
    b64DecodeList nongzip_b64 = some [0, 0, 0] ∧
    gz_none [0, 0, 0] = none ∧
    decode_bus_data gz_none bad_b64 = decode_bus_data gz_none nongzip_b64 ∧
    ¬ ∃ f : Option (List Nat) → DecodeStage,
        f (decode_bus_data gz_none bad_b64) = DecodeStage.base64 ∧
        f (decode_bus_data gz_none nongzip_b64) = DecodeStage.gzip := by
  refine ⟨by decide, by decide, rfl, by decide, ?_⟩
  rintro ⟨f, h1, h2⟩
  have he : decode_bus_data gz_none bad_b64 = decode_bus_data gz_none nongzip_b64 := by
    decide
  rw [he, h2] at h1
  exact absurd h1 (by decide)

/-- C3 amended: for every input that is not valid base64, and for every
input that is valid base64 of bytes the decompressor rejects, decode
yields `none` — one untagged failure, with no stage information; the
callback reports the failure for that message alone, the surrounding
messages of the same inbound payload being handled unchanged, and
nothing is raised past the component (the callback is a total
function). -/
theorem C3_amended_containment {α : Type} (gz : List Nat → Option (List Nat))
    (parse : List Nat → Option α) (s : List Char)
    (h : b64DecodeList s = none ∨ ∃ bs, b64DecodeList s = some bs ∧ gz bs = none) :
    decode_bus_data gz s = none ∧
    ∀ pre post : List (InboundItem α),
      callback gz parse (.textItems (pre ++ .text s :: post)) =
        callback gz parse (.textItems pre) ++
          Report.decodeFailed s :: callback gz parse (.textItems post) := by
  have hdec : decode_bus_data gz s = none := by
    rw [decode_bus_data_eq]
    rcases h with h | ⟨bs, hb, hg⟩
    · rw [h]
      rfl
    · rw [hb]
      simp [hg]
  refine ⟨hdec, ?_⟩
  intro pre post
  simp only [callback, List.map_append, List.map_cons]
  congr 1
  congr 1
  simp only [item_report, hdec]

/-- Witness for C3 amended at the malformed base64 input `!!!!`. -/
theorem C3_witness :
    (b64DecodeList bad_b64 = none ∨
      ∃ bs, b64DecodeList bad_b64 = some bs ∧ gz_none bs = none) ∧
    decode_bus_data gz_none bad_b64 = none ∧
    callback gz_none parse0 (.textItems [.text bad_b64]) =
      [Report.decodeFailed bad_b64] := by
  have h := C3_amended_containment gz_none parse0 bad_b64 (Or.inl (by decide))
  refine ⟨Or.inl (by decide), h.1, ?_⟩
  have h2 := h.2 [] []
  simpa [callback] using h2

/-- C2 counterexample: the resolver does not survive a failed HTTP
fetch. `send().await.unwrap()` / `text().await.unwrap()` panic when the
fetch fails, so no `Session` is produced — the claim that every fetch
outcome yields a `Session` fails at the outcome `none`. -/
theorem C2_counterexample :
    prasarana_resolve none = none ∧ (prasarana_resolve none).isSome = false :=
  ⟨rfl, rfl⟩

/-- C2 amended: when the HTTP fetch succeeds and the body is readable,
the resolver always returns a `Session`, substituting the per-field
defaults for whatever is missing; when the fetch or the body read fails,
the `unwrap` panics and the run aborts instead of degrading to
defaults. -/
theorem C2_amended_resolution :
    (∀ html : List Char, prasarana_resolve (some html) = some (extract_session html)) ∧
    prasarana_resolve none = none :=
  ⟨fun _ => rfl, rfl⟩

/-- C4: every field of the session is extracted independently by its own
pattern; a field whose pattern has no match in the page is replaced by
its default (`sid` by the empty string, `prm` by `rapidkl`, `no_route`
by `300`); a page with no matching assignment yields the all-defaults
session; and the spec's sample page extracts `abc123` / `rapidkl` /
`300`. -/
theorem C4_field_defaults :
    (∀ html : List Char, extract_session html =
      { sid := (findVar "sid".data false html).getD []
        prm := (findVar "prm".data true html).getD "rapidkl".data
        no_route := (findVar "no_route".data true html).getD "300".data }) ∧
    (∀ html : List Char, findVar "sid".data false html = none →
       (extract_session html).sid = []) ∧
    (∀ html : List Char, findVar "prm".data true html = none →
       (extract_session html).prm = "rapidkl".data) ∧
    (∀ html : List Char, findVar "no_route".data true html = none →
       (extract_session html).no_route = "300".data) ∧
    (∀ html : List Char, findVar "sid".data false html = none →
       findVar "prm".data true html = none →
       findVar "no_route".data true html = none →
       extract_session html = ⟨[], "rapidkl".data, "300".data⟩) ∧
    extract_session sample_html = ⟨"abc123".data, "rapidkl".data, "300".data⟩ := by
  refine ⟨fun html => rfl, ?_, ?_, ?_, ?_, by decide⟩
  · intro html h
    simp [extract_session, h]
  · intro html h
    simp [extract_session, h]
  · intro html h
    simp [extract_session, h]
  · intro html h1 h2 h3
    simp [extract_session, h1, h2, h3]

/-- Witness for C4 at a page with no matching assignments. -/
theorem C4_witness :
    (findVar "sid".data false empty_html = none ∧
     findVar "prm".data true empty_html = none ∧
     findVar "no_route".data true empty_html = none) ∧
    extract_session empty_html = ⟨[], "rapidkl".data, "300".data⟩ :=
  ⟨by decide,
    C4_field_defaults.2.2.2.2.1 empty_html (by decide) (by decide) (by decide)⟩

/-- C5: whenever the connection enters the `Connected` state, the very
first events of the live phase are the connect notification followed
immediately by the `onFts-reload` emission whose payload is exactly
`sid`, `uid` (empty), `provider`, `route` from the resolved session —
no other event, in particular no other emission, precedes it. -/
theorem C5_handshake_emission : ∀ (s : Session) (hs : EmitResult) (outs : List EmitResult),
    (run_live s true hs outs).take 2 =
      [Event.connected,
       Event.emit
         { event := "onFts-reload".data
           payload := [("sid".data, s.sid), ("uid".data, []),
                       ("provider".data, s.prm), ("route".data, s.no_route)] } hs] := by
  intro s hs outs
  rfl

/-- C6 counterexample: a failed handshake emit does not end the live
phase. With the handshake emit failing and the first keep-alive emit
succeeding, the run reports the handshake failure and then still sleeps
and emits again: two emissions occur, the second after the failure. -/
theorem C6_counterexample :
    run_live s0 true EmitResult.err [EmitResult.ok] =
      [Event.connected, Event.emit (reload_event s0) .err, Event.emitFailReport,
       Event.sleep 5, Event.emit (reload_event s0) .ok] ∧
    (run_live s0 true EmitResult.err [EmitResult.ok]).countP isEmitEv = 2 := by
  constructor
  · decide
  · decide

/-- C6 amended: a keep-alive emit failure ends the live phase — it is
reported once and nothing follows, with no retry; a handshake emit
failure, by contrast, is only reported: the keep-alive loop still runs
after it. -/
theorem C6_amended_emit_failure :
    (∀ (s : Session) (pre post : List EmitResult), (∀ r ∈ pre, r = EmitResult.ok) →
       keep_alive_loop s (pre ++ EmitResult.err :: post) =
         pre.flatMap (fun _ => [Event.sleep 5, Event.emit (reload_event s) .ok]) ++
           [Event.sleep 5, Event.emit (reload_event s) .err, Event.reloadFailReport]) ∧
    (∀ (s : Session) (outs : List EmitResult),
       run_live s true EmitResult.err outs =
         Event.connected :: Event.emit (reload_event s) .err :: Event.emitFailReport ::
           keep_alive_loop s outs) := by
  constructor
  · intro s pre post hpre
    induction pre with
    | nil => simp [keep_alive_loop]
    | cons r rest ih =>
      have hr : r = EmitResult.ok := hpre r (by simp)
      subst hr
      simp only [List.cons_append, keep_alive_loop, List.flatMap_cons, List.append_assoc,
        List.append_eq]
      rw [ih (fun x hx => hpre x (by simp [hx]))]
      simp
  · intro s outs
    rfl

/-- Witness for C6 amended: one successful tick, then a failing one;
the loop emits twice, reports once, and stops. -/
theorem C6_witness :
    (∀ r ∈ [EmitResult.ok], r = EmitResult.ok) ∧
    keep_alive_loop s0 [EmitResult.ok, EmitResult.err] =
      [Event.sleep 5, Event.emit (reload_event s0) .ok,
       Event.sleep 5, Event.emit (reload_event s0) .err, Event.reloadFailReport] := by
  refine ⟨by decide, ?_⟩
  have h := C6_amended_emit_failure.1 s0 [EmitResult.ok] [] (by decide)
  simpa using h

/-- C7: the keep-alive loop produces exactly the specified event
sequence — one sleep-5/emit pair per tick while emissions succeed, then
on the first failing emission one final tick and a single failure
report with nothing after it; consequently the number of emissions
equals the number of ticks and at most one failure is ever reported. -/
theorem C7_keepalive_cadence : ∀ (s : Session) (outs : List EmitResult),
    keep_alive_loop s outs = spec_keep_alive s outs ∧
    (keep_alive_loop s outs).countP isEmitEv = (keep_alive_loop s outs).countP isSleepEv ∧
    (keep_alive_loop s outs).countP isReloadFailEv ≤ 1 := by
  intro s outs
  induction outs with
  | nil => simp [keep_alive_loop, spec_keep_alive]
  | cons r rest ih =>
    cases r with
    | ok =>
      have hspec : spec_keep_alive s (EmitResult.ok :: rest) =
          Event.sleep 5 :: Event.emit (reload_event s) .ok :: spec_keep_alive s rest := by
        simp [spec_keep_alive, List.takeWhile_cons, List.dropWhile_cons, isOk]
      refine ⟨?_, ?_, ?_⟩
      · rw [hspec]
        simp only [keep_alive_loop]
        rw [ih.1]
      · simp [keep_alive_loop, List.countP_cons, isEmitEv, isSleepEv, ih.2.1]
      · simpa [keep_alive_loop, List.countP_cons, isReloadFailEv] using ih.2.2
    | err =>
      refine ⟨?_, ?_, ?_⟩
      · simp [keep_alive_loop, spec_keep_alive, List.takeWhile_cons, List.dropWhile_cons, isOk]
      · simp [keep_alive_loop, List.countP_cons, isEmitEv, isSleepEv]
      · simp [keep_alive_loop, List.countP_cons, isReloadFailEv]

/-- C8: a binary inbound item is surfaced length-only — the reporter
receives exactly one notice carrying the item's byte length, and the
notice is a function of the length alone, so none of the raw bytes are
forwarded. -/
theorem C8_binary_length_only : ∀ {α : Type} (gz : List Nat → Option (List Nat))
    (parse : List Nat → Option α) (bin : List Nat),
    callback gz parse (.binary bin) = [Report.binaryLen bin.length] ∧
    ∀ bin' : List Nat, bin.length = bin'.length →
      callback gz parse (.binary bin) = callback gz parse (.binary bin') := by
  intro α gz parse bin
  refine ⟨rfl, ?_⟩
  intro bin' h
  simp [callback, h]

/-- Witness for C8 at a 48-byte binary item: the reporter gets the
length-only notice `48`, identical to that of a different 48-byte
item. -/
theorem C8_witness :
    (List.replicate 48 (7 : Nat)).length = (List.replicate 48 (9 : Nat)).length ∧
    callback gz_none parse0 (.binary (List.replicate 48 (7 : Nat))) =
      [Report.binaryLen 48] ∧
    callback gz_none parse0 (.binary (List.replicate 48 (7 : Nat))) =
      callback gz_none parse0 (.binary (List.replicate 48 (9 : Nat))) := by
  refine ⟨by decide, ?_,
    (C8_binary_length_only gz_none parse0 (List.replicate 48 7)).2
      (List.replicate 48 9) (by decide)⟩
  have h := (C8_binary_length_only gz_none parse0 (List.replicate 48 (7 : Nat))).1
  simpa using h

/-- Every emission of the keep-alive loop carries the reload event built
from the session the loop was given. -/
theorem keep_alive_emit_eq : ∀ (s : Session) (outs : List EmitResult)
    (e : EmitEvent) (r : EmitResult),
    Event.emit e r ∈ keep_alive_loop s outs → e = reload_event s := by
  intro s outs
  induction outs with
  | nil =>
    intro e r h
    simp [keep_alive_loop] at h
  | cons o rest ih =>
    intro e r h
    cases o with
    | ok =>
      simp only [keep_alive_loop, List.mem_cons] at h
      rcases h with h | h | h
      · exact absurd h (by simp)
      · cases h
        rfl
      · exact ih e r h
    | err =>
      simp only [keep_alive_loop, List.mem_cons] at h
      rcases h with h | h | h
      · exact absurd h (by simp)
      · cases h
        rfl
      · exact absurd h (by simp)

/-- C9: session immutability. Every emission of one run — the handshake
and every keep-alive refresh — carries exactly the reload event built
from the one resolved session; no field is renegotiated or mutated
between emissions. -/
theorem C9_session_immutable : ∀ (s : Session) (co : Bool) (hs : EmitResult)
    (outs : List EmitResult) (e : EmitEvent) (r : EmitResult),
    Event.emit e r ∈ run_live s co hs outs → e = reload_event s := by
  intro s co hs outs e r h
  cases co with
  | false =>
    simp [run_live] at h
  | true =>
    have h' : Event.emit e r ∈
        Event.connected :: (connect_handler s hs ++ keep_alive_loop s outs) := h
    rcases List.mem_cons.mp h' with h1 | h1
    · exact absurd h1 (by simp)
    rcases List.mem_append.mp h1 with h2 | h2
    · cases hs with
      | ok =>
        have h3 : Event.emit e r ∈ [Event.emit (reload_event s) EmitResult.ok] := h2
        have h4 := List.mem_singleton.mp h3
        injection h4 with h5 h6
      | err =>
        have h3 : Event.emit e r ∈
            [Event.emit (reload_event s) EmitResult.err, Event.emitFailReport] := h2
        rcases List.mem_cons.mp h3 with h4 | h4
        · injection h4 with h5 h6
        · exact absurd (List.mem_singleton.mp h4) (by simp)
    · exact keep_alive_emit_eq s outs e r h2

/-- Witness for C9: in a run with a successful handshake and one
keep-alive tick, the emitted event is the reload event of the session. -/
theorem C9_witness :
    Event.emit (reload_event s0) EmitResult.ok ∈
      run_live s0 true EmitResult.ok [EmitResult.ok] ∧
    reload_event s0 = reload_event s0 :=
  ⟨by decide,
    C9_session_immutable s0 true EmitResult.ok [EmitResult.ok]
      (reload_event s0) EmitResult.ok (by decide)⟩

end RapidBro
